import Mathlib

set_option autoImplicit false

/-
Verification of the installation-step orchestrator and the external-CA
two-phase signing logic of ipaserver/install/service.py and
ipaserver/install/cainstance.py, via a shallow embedding.

Stateful Python code is embedded as explicit state passing; an action of a
step is modelled by the lines it prints before returning or raising and by
its outcome (normal return, or a raised exception). The observable trace of
a run is the list of printed lines, which faithfully records which steps
were executed and in which form, because run_step prints the step line
before invoking the method.
-/

/-- Exceptions that a step action can raise. SystemExit carries the exit
code handed to sys.exit; every other exception is represented by its type
name and message, which is all start_creation inspects. -/
inductive Exc where
  | systemExit (code : Int)
  | error (ty : String) (msg : String)
  deriving DecidableEq

/-- The test applied by start_creation in its except handler:
isinstance(e, SystemExit) and e.code == 0. -/
def Exc.isSuccessExit : Exc → Bool
  | .systemExit c => c == 0
  | .error _ _ => false

/-- type(e).__name__ as used in the error line. -/
def Exc.typeName : Exc → String
  | .systemExit _ => "SystemExit"
  | .error ty _ => ty

/-- str(e) as used in the error line. -/
def Exc.toMsg : Exc → String
  | .systemExit c => toString c
  | .error _ m => m

/-- One entry of self.steps: (message, method, run_after_failure), with the
method abstracted by the lines it prints and its outcome. -/
structure Step where
  message : String
  out : List String
  outcome : Option Exc
  run_after_failure : Bool
  deriving DecidableEq

/-- format_seconds from service.py: divmod by 60, a minutes part when
minutes is nonzero, a seconds part when seconds is nonzero or minutes is
zero, pluralising any part different from 1. -/
def format_seconds (seconds : Nat) : String :=
  let minutes := seconds / 60
  let secs := seconds % 60
  let parts : List String :=
    (if minutes ≠ 0 then
      [toString minutes ++ " minute" ++ (if minutes ≠ 1 then "s" else "")]
     else []) ++
    (if secs ≠ 0 ∨ minutes = 0 then
      [toString secs ++ " second" ++ (if secs ≠ 1 then "s" else "")]
     else [])
  String.intercalate " " parts

/-- The "  [i/N]: message" progress line printed by the main loop. -/
def numberedLine (idx total : Nat) (msg : String) : String :=
  "  [" ++ toString (idx + 1) ++ "/" ++ toString total ++ "]: " ++ msg

/-- The "  [error] Type: message" line printed when a step fails. -/
def errorLine (e : Exc) : String :=
  "  [error] " ++ e.typeName ++ ": " ++ e.toMsg

/-- The "  [cleanup]: message" line printed for a step of the cleanup pass. -/
def cleanupLine (msg : String) : String :=
  "  [cleanup]: " ++ msg

/-- The cleanup pass of start_creation: iterate over the steps not yet
consumed from steps_iter, running exactly those with run_after_failure set.
If a cleanup method itself raises, the iteration stops there and that
exception propagates out of the except block. Returns the printed lines and
the exception raised during cleanup, if any. -/
def runCleanup : List Step → List String × Option Exc
  | [] => ([], none)
  | s :: rest =>
    if s.run_after_failure then
      match s.outcome with
      | some e => (cleanupLine s.message :: s.out, some e)
      | none =>
        let r := runCleanup rest
        ((cleanupLine s.message :: s.out) ++ r.1, r.2)
    else runCleanup rest

/-- The main loop of start_creation over the shared steps_iter. idx is the
step counter, total is len(self.steps). On an exception that is not a
successful exit the error line is printed and the cleanup pass runs over
the remaining steps; afterwards the original exception is re-raised, unless
the cleanup pass itself raised, in which case that exception propagates. -/
def runRemaining (total : Nat) : Nat → List Step → List String × Option Exc
  | _, [] => ([], none)
  | idx, s :: rest =>
    let stepLines := numberedLine idx total s.message :: s.out
    match s.outcome with
    | none =>
      let r := runRemaining total (idx + 1) rest
      (stepLines ++ r.1, r.2)
    | some e =>
      if e.isSuccessExit then (stepLines, some e)
      else
        let c := runCleanup rest
        match c.2 with
        | some e2 => (stepLines ++ errorLine e :: c.1, some e2)
        | none => (stepLines ++ errorLine e :: c.1, some e)

/-- The first line printed by start_creation: the start message, extended
with the formatted runtime estimate when runtime is positive. -/
def startLine (start_message : String) (runtime : Int) : String :=
  if runtime > 0 then
    start_message ++ ". Estimated time: " ++ format_seconds runtime.toNat
  else start_message

/-- Service.start_creation with explicit start and end messages: print the
start line, run the steps, and print the end message only when every step
returned normally. The second component is the exception propagated to the
caller, if any. -/
def start_creation (start_message end_message : String) (runtime : Int)
    (steps : List Step) : List String × Option Exc :=
  let r := runRemaining steps.length 0 steps
  match r.2 with
  | none => (startLine start_message runtime :: r.1 ++ [end_message], none)
  | some e => (startLine start_message runtime :: r.1, some e)

/-- Lines printed by a block of successfully returning steps. -/
def okLines (total : Nat) : Nat → List Step → List String
  | _, [] => []
  | idx, s :: rest =>
    (numberedLine idx total s.message :: s.out) ++ okLines total (idx + 1) rest

/-- Lines printed by a full cleanup pass in which no cleanup method raises:
exactly the run_after_failure steps, in order, each under a cleanup line. -/
def cleanupLines : List Step → List String
  | [] => []
  | s :: rest =>
    (if s.run_after_failure then cleanupLine s.message :: s.out else []) ++
      cleanupLines rest

theorem runCleanup_ok (l : List Step)
    (h : ∀ t ∈ l, t.run_after_failure = true → t.outcome = none) :
    runCleanup l = (cleanupLines l, none) := by
  induction l with
  | nil => rfl
  | cons s rest ih =>
    have h1 := h s (by simp)
    have h2 : ∀ t ∈ rest, t.run_after_failure = true → t.outcome = none :=
      fun t ht => h t (by simp [ht])
    by_cases hf : s.run_after_failure = true
    · simp only [runCleanup, hf, if_true, h1 hf, ih h2, cleanupLines]
    · simp only [runCleanup, hf, if_false, ih h2, cleanupLines,
        Bool.not_eq_true] at *
      simp [hf]

theorem runRemaining_ok (total : Nat) (pre rest : List Step) (idx : Nat)
    (h : ∀ t ∈ pre, t.outcome = none) :
    runRemaining total idx (pre ++ rest) =
      (okLines total idx pre ++ (runRemaining total (idx + pre.length) rest).1,
       (runRemaining total (idx + pre.length) rest).2) := by
  induction pre generalizing idx with
  | nil => simp [okLines]
  | cons s pre ih =>
    have h1 : s.outcome = none := h s (by simp)
    have h2 : ∀ t ∈ pre, t.outcome = none := fun t ht => h t (by simp [ht])
    simp only [List.cons_append, runRemaining, h1, okLines, List.length_cons,
      List.append_eq]
    rw [ih _ h2]
    have harith : idx + 1 + pre.length = idx + (pre.length + 1) := by omega
    rw [harith]
    simp [List.append_assoc]

theorem runRemaining_exit (total idx : Nat) (s : Step) (post : List Step)
    (e : Exc) (hs : s.outcome = some e) (he : e.isSuccessExit = true) :
    runRemaining total idx (s :: post) =
      (numberedLine idx total s.message :: s.out, some e) := by
  simp [runRemaining, hs, he]

theorem runRemaining_fail (total idx : Nat) (s : Step) (post : List Step)
    (e : Exc) (hs : s.outcome = some e) (he : e.isSuccessExit = false)
    (hpost : ∀ t ∈ post, t.run_after_failure = true → t.outcome = none) :
    runRemaining total idx (s :: post) =
      ((numberedLine idx total s.message :: s.out) ++
         errorLine e :: cleanupLines post,
       some e) := by
  simp [runRemaining, hs, he, runCleanup_ok post hpost]

theorem start_creation_exit (sm em : String) (rt : Int) (pre post : List Step)
    (s : Step) (e : Exc)
    (hpre : ∀ t ∈ pre, t.outcome = none)
    (hs : s.outcome = some e) (he : e.isSuccessExit = true) :
    start_creation sm em rt (pre ++ s :: post) =
      (startLine sm rt ::
        (okLines (pre ++ s :: post).length 0 pre ++
          (numberedLine pre.length (pre ++ s :: post).length s.message :: s.out)),
       some e) := by
  unfold start_creation
  rw [runRemaining_ok _ _ _ _ hpre, Nat.zero_add,
    runRemaining_exit _ _ _ _ _ hs he]

theorem start_creation_fail (sm em : String) (rt : Int) (pre post : List Step)
    (s : Step) (e : Exc)
    (hpre : ∀ t ∈ pre, t.outcome = none)
    (hs : s.outcome = some e) (he : e.isSuccessExit = false)
    (hpost : ∀ t ∈ post, t.run_after_failure = true → t.outcome = none) :
    start_creation sm em rt (pre ++ s :: post) =
      (startLine sm rt ::
        (okLines (pre ++ s :: post).length 0 pre ++
          ((numberedLine pre.length (pre ++ s :: post).length s.message :: s.out) ++
            errorLine e :: cleanupLines post)),
       some e) := by
  unfold start_creation
  rw [runRemaining_ok _ _ _ _ hpre, Nat.zero_add,
    runRemaining_fail _ _ _ _ _ hs he hpost]

/-- Claim C1, amended: if the action of step k raises an exception that is
not a successful-exit signal, then afterwards exactly the steps among the
remaining ones flagged run_after_failure are executed, in their original
relative order, each under a "  [cleanup]: " line, and the original
exception is re-raised to the caller unchanged in type and message --
provided no executed cleanup action itself raises. Without that proviso the
claim is false (see the counterexample): a raising cleanup action aborts
the cleanup pass and its own exception propagates instead of the original
one. -/
theorem C1_failure_runs_cleanup_then_reraises (sm em : String) (rt : Int)
    (pre post : List Step) (s : Step) (e : Exc)
    (hpre : ∀ t ∈ pre, t.outcome = none)
    (hs : s.outcome = some e) (he : e.isSuccessExit = false)
    (hpost : ∀ t ∈ post, t.run_after_failure = true → t.outcome = none) :
    start_creation sm em rt (pre ++ s :: post) =
      (startLine sm rt ::
        (okLines (pre ++ s :: post).length 0 pre ++
          ((numberedLine pre.length (pre ++ s :: post).length s.message :: s.out) ++
            errorLine e :: cleanupLines post)),
       some e) :=
  start_creation_fail sm em rt pre post s e hpre hs he hpost

/-- Claim C1 as literally stated is false on the code: with step "a"
raising ValueError, step "b" flagged run_after_failure but itself raising,
and step "c" flagged run_after_failure, the flagged step "c" is never
executed and the exception reaching the caller is not the original
ValueError. -/
theorem C1_counterexample :
    (start_creation "Start" "Done" (-1)
        [⟨"a", [], some (Exc.error "ValueError" "boom"), false⟩,
         ⟨"b", [], some (Exc.error "RuntimeError" "cleanup failed"), true⟩,
         ⟨"c", [], none, true⟩]).2 ≠ some (Exc.error "ValueError" "boom") ∧
    cleanupLine "c" ∉
      (start_creation "Start" "Done" (-1)
        [⟨"a", [], some (Exc.error "ValueError" "boom"), false⟩,
         ⟨"b", [], some (Exc.error "RuntimeError" "cleanup failed"), true⟩,
         ⟨"c", [], none, true⟩]).1 := by
  decide

/-- Claim C2: a step action raising the successful-termination signal
SystemExit(0) is not treated as a failure: no error line is printed, no
cleanup-flagged step is executed (the trace ends with the exiting step),
and nothing that is not a successful-exit signal is re-raised to the
caller. The SystemExit(0) signal itself still propagates, terminating the
process with exit code 0. -/
theorem C2_success_exit_skips_cleanup (sm em : String) (rt : Int)
    (pre post : List Step) (s : Step)
    (hpre : ∀ t ∈ pre, t.outcome = none)
    (hs : s.outcome = some (Exc.systemExit 0)) :
    start_creation sm em rt (pre ++ s :: post) =
      (startLine sm rt ::
        (okLines (pre ++ s :: post).length 0 pre ++
          (numberedLine pre.length (pre ++ s :: post).length s.message :: s.out)),
       some (Exc.systemExit 0)) ∧
    ∀ e, (start_creation sm em rt (pre ++ s :: post)).2 = some e →
      e.isSuccessExit = true := by
  have h := start_creation_exit sm em rt pre post s (Exc.systemExit 0) hpre hs rfl
  refine ⟨h, fun e he2 => ?_⟩
  rw [h] at he2
  simp only [Option.some.injEq] at he2
  rw [← he2]
  rfl

/-- Claim C9, amended: SystemExit with a nonzero code is treated as a
failure: the error line is printed, the cleanup pass over the remaining
run_after_failure steps executes, and the signal is re-raised -- provided
no executed cleanup action itself raises (otherwise the cleanup exception
propagates instead, see the counterexample). Only exit code exactly 0 is
exempt. -/
theorem C9_nonzero_exit_is_failure (sm em : String) (rt : Int)
    (pre post : List Step) (s : Step) (c : Int)
    (hpre : ∀ t ∈ pre, t.outcome = none)
    (hs : s.outcome = some (Exc.systemExit c)) (hc : c ≠ 0)
    (hpost : ∀ t ∈ post, t.run_after_failure = true → t.outcome = none) :
    start_creation sm em rt (pre ++ s :: post) =
      (startLine sm rt ::
        (okLines (pre ++ s :: post).length 0 pre ++
          ((numberedLine pre.length (pre ++ s :: post).length s.message :: s.out) ++
            errorLine (Exc.systemExit c) :: cleanupLines post)),
       some (Exc.systemExit c)) :=
  start_creation_fail sm em rt pre post s (Exc.systemExit c) hpre hs
    (by simp [Exc.isSuccessExit, hc]) hpost

/-- Claim C9 as literally stated is false in the same corner as claim C1:
if a cleanup action raises while handling SystemExit(5), the SystemExit
signal is not the exception re-raised to the caller. -/
theorem C9_counterexample :
    (start_creation "Start" "Done" (-1)
        [⟨"p", [], some (Exc.systemExit 5), false⟩,
         ⟨"q", [], some (Exc.error "RuntimeError" "undo failed"), true⟩]).2 ≠
      some (Exc.systemExit 5) := by
  decide

/-- Claim C6: format_seconds maps a number of seconds to an English
minutes-and-seconds phrase with singular and plural agreement; in
particular 65, 60, 1 and 0 map as listed in the specification. -/
theorem C6_format_seconds_examples :
    format_seconds 65 = "1 minute 5 seconds" ∧
    format_seconds 60 = "1 minute" ∧
    format_seconds 1 = "1 second" ∧
    format_seconds 0 = "0 seconds" :=
  ⟨rfl, rfl, rfl, rfl⟩

/-- Concrete step list pieces for the claim C1 witness. -/
def c1Pre : List Step := [⟨"alpha", [], none, false⟩]

def c1Fail : Step := ⟨"beta", [], some (Exc.error "ValueError" "boom"), false⟩

def c1Post : List Step := [⟨"gamma", [], none, false⟩, ⟨"delta", [], none, true⟩]

/-- Witness for the amended claim C1 at a concrete step list. -/
theorem C1_witness :
    (∀ t ∈ c1Pre, t.outcome = none) ∧
    (∀ t ∈ c1Post, t.run_after_failure = true → t.outcome = none) ∧
    start_creation "Start" "Done" (-1) (c1Pre ++ c1Fail :: c1Post) =
      (startLine "Start" (-1) ::
        (okLines (c1Pre ++ c1Fail :: c1Post).length 0 c1Pre ++
          ((numberedLine c1Pre.length (c1Pre ++ c1Fail :: c1Post).length
              c1Fail.message :: c1Fail.out) ++
            errorLine (Exc.error "ValueError" "boom") :: cleanupLines c1Post)),
       some (Exc.error "ValueError" "boom")) :=
  ⟨by decide, by decide,
    C1_failure_runs_cleanup_then_reraises "Start" "Done" (-1) c1Pre c1Post c1Fail
      (Exc.error "ValueError" "boom") (by decide) rfl rfl (by decide)⟩

/-- Concrete step list pieces for the claim C2 witness. -/
def c2Pre : List Step := [⟨"one", [], none, false⟩]

def c2Exit : Step := ⟨"two", ["CSR written"], some (Exc.systemExit 0), false⟩

def c2Post : List Step := [⟨"three", [], none, true⟩]

/-- Witness for claim C2 at a concrete step list: one successful step, then
a step raising SystemExit(0), then a run_after_failure step that must not
run. -/
theorem C2_witness :
    (∀ t ∈ c2Pre, t.outcome = none) ∧
    (start_creation "Start" "Done" (-1) (c2Pre ++ c2Exit :: c2Post) =
      (startLine "Start" (-1) ::
        (okLines (c2Pre ++ c2Exit :: c2Post).length 0 c2Pre ++
          (numberedLine c2Pre.length (c2Pre ++ c2Exit :: c2Post).length
              c2Exit.message :: c2Exit.out)),
       some (Exc.systemExit 0)) ∧
      ∀ e, (start_creation "Start" "Done" (-1) (c2Pre ++ c2Exit :: c2Post)).2 =
          some e → e.isSuccessExit = true) :=
  ⟨by decide,
    C2_success_exit_skips_cleanup "Start" "Done" (-1) c2Pre c2Post c2Exit
      (by decide) rfl⟩

/-- Concrete step list pieces for the claim C9 witness. -/
def c9Boom : Step := ⟨"boom", [], some (Exc.systemExit 7), false⟩

def c9Post : List Step := [⟨"undo", [], none, true⟩]

/-- Witness for the amended claim C9: SystemExit(7) is classified as a
failure, the flagged remaining step runs as cleanup, and SystemExit(7) is
re-raised. -/
theorem C9_witness :
    (7 : Int) ≠ 0 ∧
    (∀ t ∈ c9Post, t.run_after_failure = true → t.outcome = none) ∧
    start_creation "Start" "Done" (-1) (([] : List Step) ++ c9Boom :: c9Post) =
      (startLine "Start" (-1) ::
        (okLines (([] : List Step) ++ c9Boom :: c9Post).length 0 [] ++
          ((numberedLine (List.length ([] : List Step))
              (([] : List Step) ++ c9Boom :: c9Post).length
              c9Boom.message :: c9Boom.out) ++
            errorLine (Exc.systemExit 7) :: cleanupLines c9Post)),
       some (Exc.systemExit 7)) :=
  ⟨by decide, by decide,
    C9_nonzero_exit_is_failure "Start" "Done" (-1) [] c9Post c9Boom 7
      (by decide) rfl (by decide) (by decide)⟩

/-
CAInstance.configure_instance: step-list construction and the two-phase
external-CA logic of cainstance.py. A step method is abstracted by an
environment env assigning to each step message the lines that method prints
and its outcome; __spawn_instance is special-cased because its tail is
visible in the source: when external == 1 it prints the next-step
instructions naming the CSR path and calls sys.exit(0).
-/

/-- Behaviour of a step method: printed lines and outcome. -/
abbrev StepAction := List String × Option Exc

/-- The inputs of configure_instance that decide which steps are appended:
promote, ra_only, clone (pkcs12_info given), the has_ra_cert check result,
the external state machine value, and the data used by the phase-1 exit. -/
structure CAFlags where
  promote : Bool
  ra_only : Bool
  clone : Bool
  has_ra_cert : Bool
  external : Nat
  csr_file : String
  argv0 : String
  deriving DecidableEq

/-- self.step(message, method): run_after_failure defaults to False for
every step configure_instance appends. -/
def mkStep (env : String → StepAction) (msg : String) : Step :=
  ⟨msg, (env msg).1, (env msg).2, false⟩

/-- The two instruction lines printed at the end of __spawn_instance when
external == 1, referencing the CSR path and the re-run command. -/
def instructionLines (argv0 csr_file : String) : List String :=
  ["The next step is to get " ++ csr_file ++
     " signed by your CA and re-run " ++ argv0 ++ " as:",
   argv0 ++
     " --external-cert-file=/path/to/signed_certificate --external-cert-file=/path/to/external_ca_certificate"]

/-- Tail of __spawn_instance: after the spawn work (abstracted as work)
succeeds, a phase-1 instance prints the instructions and raises
SystemExit(0) via sys.exit(0); otherwise the method returns normally. -/
def spawnOut (f : CAFlags) (work : StepAction) : StepAction :=
  match work.2 with
  | some e => (work.1, some e)
  | none =>
    if f.external = 1 then
      (work.1 ++ instructionLines f.argv0 f.csr_file, some (Exc.systemExit 0))
    else (work.1, none)

/-- The "configuring certificate server instance" step built from
__spawn_instance. -/
def spawnStep (f : CAFlags) (env : String → StepAction) : Step :=
  ⟨"configuring certificate server instance",
   (spawnOut f (env "configuring certificate server instance")).1,
   (spawnOut f (env "configuring certificate server instance")).2,
   false⟩

/-- The step list appended by configure_instance, in source order: branch 1
(unless ra_only), then, unless external == 1, branch 2a (unless
has_ra_cert) and branch 2b (unless ra_only). -/
def configure_instance_steps (f : CAFlags) (env : String → StepAction) : List Step :=
  (if f.ra_only = false then
    [mkStep env "creating certificate server user"] ++
    (if f.promote = true then
      [mkStep env "creating certificate server db",
       mkStep env "setting up initial replication",
       mkStep env "creating installation admin user"]
     else []) ++
    [spawnStep f env,
     mkStep env "stopping certificate server instance to update CS.cfg",
     mkStep env "backing up CS.cfg",
     mkStep env "disabling nonces",
     mkStep env "set up CRL publishing",
     mkStep env "enable PKIX certificate path discovery and validation"] ++
    (if f.promote = true then [mkStep env "destroying installation admin user"]
     else []) ++
    [mkStep env "starting certificate server instance"]
   else []) ++
  (if f.external ≠ 1 then
    (if f.has_ra_cert = false then
      [mkStep env "configure certmonger for renewals"] ++
      (if f.clone = false then [mkStep env "requesting RA certificate from CA"]
       else if f.promote = true then [mkStep env "Importing RA key"]
       else [mkStep env "importing RA certificate from PKCS #12 file"])
     else []) ++
    (if f.ra_only = false then
      [mkStep env "importing CA chain to RA certificate database",
       mkStep env "setting up signing cert profile",
       mkStep env "setting audit signing renewal to 2 years",
       mkStep env "restarting certificate server"] ++
      (if f.clone = false then [mkStep env "adding RA agent as a trusted user"]
       else []) ++
      [mkStep env "authorizing RA to modify profiles",
       mkStep env "authorizing RA to manage lightweight CAs",
       mkStep env "Ensure lightweight CAs container exists"] ++
      (if f.clone = true ∧ f.promote = false then
        [mkStep env "Ensuring backward compatibility"]
       else []) ++
      [mkStep env "configure certificate renewals",
       mkStep env "configure Server-Cert certificate renewal",
       mkStep env "Configure HTTP to proxy connections",
       mkStep env "restarting certificate server"] ++
      (if f.promote = false then
        [mkStep env "migrating certificate profiles to LDAP",
         mkStep env "importing IPA certificate profiles",
         mkStep env "adding default CA ACL",
         mkStep env "adding \x27ipa\x27 CA entry"]
       else []) ++
      [mkStep env "updating IPA configuration",
       mkStep env "enabling CA instance",
       mkStep env "configuring certmonger renewal for lightweight CAs"]
     else [])
   else [])

/-- Messages of the steps preceding the subsystem spawn step. -/
def preSpawnMsgs (promote : Bool) : List String :=
  "creating certificate server user" ::
    (if promote = true then
      ["creating certificate server db", "setting up initial replication",
       "creating installation admin user"]
     else [])

/-- Steps preceding the subsystem spawn step. -/
def preSpawnSteps (env : String → StepAction) (promote : Bool) : List Step :=
  (preSpawnMsgs promote).map (mkStep env)

/-- Steps of branch 1 after the spawn step. -/
def tailSteps (env : String → StepAction) (promote : Bool) : List Step :=
  [mkStep env "stopping certificate server instance to update CS.cfg",
   mkStep env "backing up CS.cfg",
   mkStep env "disabling nonces",
   mkStep env "set up CRL publishing",
   mkStep env "enable PKIX certificate path discovery and validation"] ++
  (if promote = true then [mkStep env "destroying installation admin user"]
   else []) ++
  [mkStep env "starting certificate server instance"]

/-- Messages of branch 1: user and db creation, subsystem spawn, stop,
config backup, nonce disable, CRL publish, PKIX enable, start. -/
def branch1Msgs (promote : Bool) : List String :=
  preSpawnMsgs promote ++
    ["configuring certificate server instance",
     "stopping certificate server instance to update CS.cfg",
     "backing up CS.cfg",
     "disabling nonces",
     "set up CRL publishing",
     "enable PKIX certificate path discovery and validation"] ++
  (if promote = true then ["destroying installation admin user"] else []) ++
  ["starting certificate server instance"]

/-- Messages of branch 2a: certmonger renewal configuration, then exactly
one of the three RA certificate acquisition steps. -/
def seg2aMsgs (clone promote : Bool) : List String :=
  "configure certmonger for renewals" ::
    (if clone = false then ["requesting RA certificate from CA"]
     else if promote = true then ["Importing RA key"]
     else ["importing RA certificate from PKCS #12 file"])

/-- Messages of branch 2b: chain import, profile, ACL and renewal steps. -/
def seg2bMsgs (clone promote : Bool) : List String :=
  ["importing CA chain to RA certificate database",
   "setting up signing cert profile",
   "setting audit signing renewal to 2 years",
   "restarting certificate server"] ++
  (if clone = false then ["adding RA agent as a trusted user"] else []) ++
  ["authorizing RA to modify profiles",
   "authorizing RA to manage lightweight CAs",
   "Ensure lightweight CAs container exists"] ++
  (if clone = true ∧ promote = false then ["Ensuring backward compatibility"]
   else []) ++
  ["configure certificate renewals",
   "configure Server-Cert certificate renewal",
   "Configure HTTP to proxy connections",
   "restarting certificate server"] ++
  (if promote = false then
    ["migrating certificate profiles to LDAP",
     "importing IPA certificate profiles",
     "adding default CA ACL",
     "adding \x27ipa\x27 CA entry"]
   else []) ++
  ["updating IPA configuration",
   "enabling CA instance",
   "configuring certmonger renewal for lightweight CAs"]

/-- Claim C5: for a non-CSR_PENDING invocation (external is not 1), the step
list decomposes as branch 1 followed by branch 2a followed by branch 2b,
where the has_ra_cert check gates only the branch 2a segment, and branch 2b
is appended for every ra_only = false mode regardless of the value of
has_ra_cert (it ends the list as a suffix). The check itself is modelled as
the input has_ra_cert, computed once from the certificate store before any
step executes, as in the source. -/
theorem C5_agent_cert_check_gates_only_branch_2a (f : CAFlags)
    (env : String → StepAction) (hext : f.external ≠ 1) :
    (configure_instance_steps f env).map Step.message =
      (if f.ra_only = false then branch1Msgs f.promote else []) ++
        (if f.has_ra_cert = false then seg2aMsgs f.clone f.promote else []) ++
        (if f.ra_only = false then seg2bMsgs f.clone f.promote else []) ∧
    (f.ra_only = false →
      (seg2bMsgs f.clone f.promote) <:+
        (configure_instance_steps f env).map Step.message) := by
  obtain ⟨p, r, c, h, ext, csr, argv⟩ := f
  have heq : (configure_instance_steps ⟨p, r, c, h, ext, csr, argv⟩ env).map
        Step.message =
      (if r = false then branch1Msgs p else []) ++
        (if h = false then seg2aMsgs c p else []) ++
        (if r = false then seg2bMsgs c p else []) := by
    cases p <;> cases r <;> cases c <;> cases h <;>
      simp [configure_instance_steps, branch1Msgs, preSpawnMsgs, seg2aMsgs,
        seg2bMsgs, mkStep, spawnStep, hext]
  refine ⟨heq, fun hr => ?_⟩
  simp only [CAFlags.ra_only] at hr
  refine ⟨(if r = false then branch1Msgs p else []) ++
    (if h = false then seg2aMsgs c p else []), ?_⟩
  simp only [CAFlags.clone, CAFlags.promote]
  rw [heq, hr]
  simp [List.append_assoc]

/-- A trivial environment in which every abstract step method prints
nothing and returns normally. -/
def emptyEnv : String → StepAction := fun _ => ([], none)

/-- Flags of a clone invocation in CERT_RECEIVED phase with an existing
agent certificate, used as the claim C5 witness input. -/
def c5Flags : CAFlags := ⟨true, false, true, true, 2, "", ""⟩

/-- Witness for claim C5 at a concrete non-CSR_PENDING invocation. -/
theorem C5_witness :
    ((configure_instance_steps c5Flags emptyEnv).map Step.message =
      (if c5Flags.ra_only = false then branch1Msgs c5Flags.promote else []) ++
        (if c5Flags.has_ra_cert = false then
          seg2aMsgs c5Flags.clone c5Flags.promote
         else []) ++
        (if c5Flags.ra_only = false then
          seg2bMsgs c5Flags.clone c5Flags.promote
         else []) ∧
    (c5Flags.ra_only = false →
      (seg2bMsgs c5Flags.clone c5Flags.promote) <:+
        (configure_instance_steps c5Flags emptyEnv).map Step.message)) :=
  C5_agent_cert_check_gates_only_branch_2a c5Flags emptyEnv (by decide)

/-- Claim C3: in CSR_PENDING phase (external = 1) the constructed step list
contains only the branch 1 group (user and database creation, subsystem
spawn, stop, config backup, nonce disable, CRL publish, PKIX enable,
start), so no step beyond that group can ever execute; and on the
successful path the run stops inside the spawn step: the trace ends with
the next-step instruction lines referencing the CSR path, and the
propagated signal is SystemExit(0), terminating the process with exit code
0. The exit part is stated for the modes that build the spawn step
(ra_only = false) and presupposes the steps before the spawn step return
normally, as execution otherwise never reaches the printing point. -/
theorem C3_phase1_spawn_group_only_then_exit_zero (f : CAFlags)
    (env : String → StepAction) (sm em : String) (rt : Int)
    (hext : f.external = 1) (hra : f.ra_only = false)
    (henv : ∀ m ∈ preSpawnMsgs f.promote, (env m).2 = none)
    (hspawn : (env "configuring certificate server instance").2 = none) :
    (configure_instance_steps f env).map Step.message = branch1Msgs f.promote ∧
    start_creation sm em rt (configure_instance_steps f env) =
      (startLine sm rt ::
        (okLines (configure_instance_steps f env).length 0
            (preSpawnSteps env f.promote) ++
          (numberedLine (preSpawnSteps env f.promote).length
              (configure_instance_steps f env).length
              "configuring certificate server instance" ::
            ((env "configuring certificate server instance").1 ++
              instructionLines f.argv0 f.csr_file))),
       some (Exc.systemExit 0)) := by
  obtain ⟨p, r, c, h, ext, csr, argv⟩ := f
  simp only [CAFlags.external] at hext
  simp only [CAFlags.ra_only] at hra
  simp only [CAFlags.promote, CAFlags.argv0, CAFlags.csr_file] at henv ⊢
  subst hext
  subst hra
  have hlist : configure_instance_steps ⟨p, false, c, h, 1, csr, argv⟩ env =
      preSpawnSteps env p ++
        spawnStep ⟨p, false, c, h, 1, csr, argv⟩ env :: tailSteps env p := by
    cases p <;>
      simp [configure_instance_steps, preSpawnSteps, preSpawnMsgs, tailSteps]
  have hpre : ∀ t ∈ preSpawnSteps env p, t.outcome = none := by
    intro t ht
    simp only [preSpawnSteps, List.mem_map] at ht
    obtain ⟨m, hm, rfl⟩ := ht
    exact henv m hm
  have hs : (spawnStep ⟨p, false, c, h, 1, csr, argv⟩ env).outcome =
      some (Exc.systemExit 0) := by
    simp [spawnStep, spawnOut, hspawn]
  constructor
  · rw [hlist]
    cases p <;>
      simp [preSpawnSteps, preSpawnMsgs, tailSteps, branch1Msgs, mkStep,
        spawnStep]
  · rw [hlist]
    rw [start_creation_exit sm em rt (preSpawnSteps env p) (tailSteps env p)
      _ _ hpre hs rfl]
    simp [spawnStep, spawnOut, hspawn]

/-- Flags of a fresh-master phase-1 (CSR_PENDING) invocation, used as the
claim C3 witness input. -/
def c3Flags : CAFlags :=
  ⟨false, false, false, false, 1, "/root/ipa.csr", "/usr/sbin/ipa-server-install"⟩

/-- Witness for claim C3 at a concrete phase-1 invocation with the runtime
estimate 210 used by configure_instance. -/
theorem C3_witness :
    ((configure_instance_steps c3Flags emptyEnv).map Step.message =
      branch1Msgs c3Flags.promote ∧
    start_creation "Configuring certificate server" "Done." 210
        (configure_instance_steps c3Flags emptyEnv) =
      (startLine "Configuring certificate server" 210 ::
        (okLines (configure_instance_steps c3Flags emptyEnv).length 0
            (preSpawnSteps emptyEnv c3Flags.promote) ++
          (numberedLine (preSpawnSteps emptyEnv c3Flags.promote).length
              (configure_instance_steps c3Flags emptyEnv).length
              "configuring certificate server instance" ::
            ((emptyEnv "configuring certificate server instance").1 ++
              instructionLines c3Flags.argv0 c3Flags.csr_file))),
       some (Exc.systemExit 0))) :=
  C3_phase1_spawn_group_only_then_exit_zero c3Flags emptyEnv
    "Configuring certificate server" "Done." 210 rfl rfl (fun _ _ => rfl) rfl

/-
The external-CA state determination at the top of configure_instance.
CAInstance.__init__ sets external to 0 and the three file fields to None;
configure_instance then runs the if/elif over its optional csr_file and
cert_file arguments. No other assignment to self.external exists in the
source, so the value is fixed for the rest of the process run.
-/

/-- The external-CA fields of a CAInstance. -/
structure ExtState where
  external : Nat
  csr_file : Option String
  cert_file : Option String
  cert_chain_file : Option String
  deriving DecidableEq

/-- Field values established by CAInstance.__init__. -/
def initExtState : ExtState := ⟨0, none, none, none⟩

/-- The if/elif determination in configure_instance: a supplied csr_file
wins and yields external = 1; otherwise a supplied cert_file yields
external = 2 and records cert_chain_file; otherwise nothing is assigned. -/
def determine_external (st : ExtState) (csr_file cert_file cert_chain_file :
    Option String) : ExtState :=
  match csr_file with
  | some f => ⟨1, some f, st.cert_file, st.cert_chain_file⟩
  | none =>
    match cert_file with
    | some g => ⟨2, st.csr_file, some g, cert_chain_file⟩
    | none => st

/-- Claim C4: the external-CA state is determined once from the optional
inputs, with the CSR path taking priority over the cert path: a supplied
csr_file yields CSR_PENDING (external = 1) whatever the cert arguments; a
supplied cert_file alone yields CERT_RECEIVED (external = 2) with the chain
file recorded; neither input leaves the state at NONE (external = 0, the
value set at construction). The source assigns self.external nowhere else,
so the state never changes within the process run. -/
theorem C4_external_state_determination (csr cert chain : Option String) :
    (∀ p, csr = some p →
      determine_external initExtState csr cert chain = ⟨1, some p, none, none⟩) ∧
    (csr = none → ∀ q, cert = some q →
      determine_external initExtState csr cert chain = ⟨2, none, some q, chain⟩) ∧
    (csr = none → cert = none →
      determine_external initExtState csr cert chain = initExtState) := by
  refine ⟨fun p hp => ?_, fun hn q hq => ?_, fun hn hn2 => ?_⟩ <;>
    subst_vars <;> rfl

/-- Witness for claim C4, also exhibiting the priority: with both inputs
supplied the state is CSR_PENDING. -/
theorem C4_witness :
    determine_external initExtState (some "/root/ipa.csr")
        (some "/root/ipa.crt") (some "/root/chain.crt") =
      ⟨1, some "/root/ipa.csr", none, none⟩ :=
  (C4_external_state_determination (some "/root/ipa.csr") (some "/root/ipa.crt")
    (some "/root/chain.crt")).1 "/root/ipa.csr" rfl

/-
Service.ldap_enable from service.py, over the directory restricted to what
it touches: for each (service name, fqdn) master entry, the list of
ipaConfigString values. The method first calls self.disable() -- the
OS-level service disable -- unconditionally, then reads the entry,
returning untouched when a value equal to "enabledservice" case
insensitively is present, appending u"enabledService" and writing back
otherwise, and creating the entry with the SERVICE_LIST start order when it
does not exist.
-/

/-- The directory state visible to ldap_enable. -/
def DirState := String × String → Option (List String)

/-- Writing an entry into the directory. -/
def DirState.set (st : DirState) (k : String × String) (vals : List String) :
    DirState :=
  fun k2 => if k2 = k then some vals else st k2

/-- Externally visible operations performed by ldap_enable, in order. -/
inductive LdapEff where
  | osDisable
  | updateEntry (k : String × String) (vals : List String)
  | addEntry (k : String × String) (vals : List String)
  deriving DecidableEq

/-- Exceptions propagated by ldap_enable. -/
inductive LdapErr where
  | duplicateEntry
  | keyError
  deriving DecidableEq

/-- The SERVICE_LIST table of service.py: name, *nix service name, start
order. -/
def SERVICE_LIST : List (String × String × Nat) :=
  [("KDC", "krb5kdc", 10),
   ("KPASSWD", "kadmin", 20),
   ("DNS", "named", 30),
   ("MEMCACHE", "ipa_memcached", 39),
   ("HTTP", "httpd", 40),
   ("KEYS", "ipa-custodia", 41),
   ("NTP", "ntpd", 45),
   ("CA", "pki-tomcatd", 50),
   ("KRA", "pki-tomcatd", 51),
   ("ADTRUST", "smb", 60),
   ("EXTID", "winbind", 70),
   ("OTPD", "ipa-otpd", 80),
   ("DNSKeyExporter", "ipa-ods-exporter", 90),
   ("DNSSEC", "ods-enforcerd", 100),
   ("DNSKeySync", "ipa-dnskeysyncd", 110)]

/-- SERVICE_LIST[name][1]: the start order, or none modelling the KeyError
of a missing key. -/
def serviceOrder (name : String) : Option Nat :=
  (SERVICE_LIST.find? (fun p => p.1 == name)).map (fun p => p.2.2)

/-- Character-wise lowercasing, the behaviour of str.lower() on the ASCII
values this code compares. Defined over the character list so that it
evaluates by kernel reduction. -/
def strToLower (s : String) : String :=
  String.mk (s.data.map Char.toLower)

/-- The check applied to each existing ipaConfigString value:
u"enabledservice" == val.lower(). -/
def isEnabledTag (v : String) : Bool :=
  strToLower v == "enabledservice"

/-- Service.ldap_enable(name, fqdn, ..., config): returns the operations
performed, and the resulting directory state or the propagated exception.
self.disable() is the first statement of the method body, so osDisable
begins the operation list on every path. -/
def ldap_enable (name fqdn : String) (config : List String) (st : DirState) :
    List LdapEff × Except LdapErr DirState :=
  match st (name, fqdn) with
  | some vals =>
    if vals.any isEnabledTag then
      ([LdapEff.osDisable], Except.ok st)
    else
      let newVals := vals ++ ["enabledService"]
      if st (name, fqdn) = some newVals then
        ([LdapEff.osDisable], Except.ok st)
      else
        ([LdapEff.osDisable, LdapEff.updateEntry (name, fqdn) newVals],
         Except.ok (st.set (name, fqdn) newVals))
  | none =>
    match serviceOrder name with
    | none => ([LdapEff.osDisable], Except.error LdapErr.keyError)
    | some order =>
      let newVals :=
        "enabledService" :: ("startOrder " ++ toString order) :: config
      match st (name, fqdn) with
      | some _ => ([LdapEff.osDisable], Except.error LdapErr.duplicateEntry)
      | none =>
        ([LdapEff.osDisable, LdapEff.addEntry (name, fqdn) newVals],
         Except.ok (st.set (name, fqdn) newVals))

/-- A start-order value of SERVICE_LIST never passes the enabled-service
tag check. -/
theorem serviceOrder_startOrder_not_tag (name : String) (order : Nat)
    (h : serviceOrder name = some order) :
    isEnabledTag ("startOrder " ++ toString order) = false := by
  unfold serviceOrder at h
  cases hf : SERVICE_LIST.find? (fun p => p.1 == name) with
  | none => rw [hf] at h; simp at h
  | some q =>
    rw [hf] at h
    simp only [Option.map_some', Option.some.injEq] at h
    have hmem : q ∈ SERVICE_LIST := List.mem_of_find?_eq_some hf
    subst h
    fin_cases hmem <;> decide

/-- Claim C10: every call to ldap_enable performs the OS-level service
disable operation first, unconditionally: osDisable heads the operation
list on every path, and on the no-op path, where the entry already carries
the enabledService tag, it is the only operation performed and the
directory is returned unchanged. -/
theorem C10_ldap_enable_disables_first (name fqdn : String)
    (config : List String) (st : DirState) :
    (ldap_enable name fqdn config st).1.head? = some LdapEff.osDisable ∧
    (∀ vals, st (name, fqdn) = some vals → vals.any isEnabledTag = true →
      ldap_enable name fqdn config st = ([LdapEff.osDisable], Except.ok st)) := by
  constructor
  · unfold ldap_enable
    cases hst : st (name, fqdn) with
    | some vals =>
      by_cases ht : vals.any isEnabledTag = true
      · simp [ht]
      · simp only [Bool.not_eq_true] at ht
        by_cases h2 : st (name, fqdn) = some (vals ++ ["enabledService"])
        · simp [ht, h2]
        · simp [ht, h2]
    | none =>
      cases ho : serviceOrder name with
      | none => simp [ho]
      | some order => simp [ho, hst]
  · intro vals hv ht
    unfold ldap_enable
    rw [hv]
    simp [ht]

/-- A directory holding a single already-enabled CA record. -/
def c10State : DirState :=
  fun k => if k = ("CA", "master.ipa.test") then some ["enabledService"] else none

/-- Witness for claim C10 on the no-op path. -/
theorem C10_witness :
    (ldap_enable "CA" "master.ipa.test" [] c10State).1.head? =
        some LdapEff.osDisable ∧
      ldap_enable "CA" "master.ipa.test" [] c10State =
        ([LdapEff.osDisable], Except.ok c10State) :=
  ⟨(C10_ldap_enable_disables_first "CA" "master.ipa.test" [] c10State).1,
   (C10_ldap_enable_disables_first "CA" "master.ipa.test" [] c10State).2
     ["enabledService"] rfl (by decide)⟩

theorem filter_eq_nil_of_any_eq_false (p : String → Bool) (l : List String)
    (h : l.any p = false) : l.filter p = [] := by
  induction l with
  | nil => rfl
  | cons a l ih =>
    cases ha : p a with
    | true => rw [List.any_cons, ha] at h; simp at h
    | false =>
      rw [List.any_cons, ha] at h
      simp only [Bool.false_or] at h
      simp [List.filter_cons, ha, ih h]

/-- Claim C7: ldap_enable is idempotent. Starting from a directory whose
(name, fqdn) entry is absent or carries no value matching the
enabledService tag check, and with a config argument carrying none either,
the first call succeeds and persists an entry with exactly one value
matching the tag check (case insensitively), and a second call for the
same service and host detects the existing tag before writing and returns
without modifying the directory, performing only the unconditional
OS-level disable. -/
theorem C7_ldap_enable_idempotent (name fqdn : String)
    (config config2 : List String) (st : DirState) (order : Nat)
    (horder : serviceOrder name = some order)
    (hconfig : config.any isEnabledTag = false)
    (hinit : ∀ vals, st (name, fqdn) = some vals →
      vals.any isEnabledTag = false) :
    ∃ st1, (ldap_enable name fqdn config st).2 = Except.ok st1 ∧
      (∃ vals1, st1 (name, fqdn) = some vals1 ∧
        (vals1.filter isEnabledTag).length = 1) ∧
      ldap_enable name fqdn config2 st1 =
        ([LdapEff.osDisable], Except.ok st1) := by
  have htag : isEnabledTag "enabledService" = true := by decide
  cases hst : st (name, fqdn) with
  | some vals =>
    have hany := hinit vals hst
    have hfil : vals.filter isEnabledTag = [] :=
      filter_eq_nil_of_any_eq_false _ _ hany
    have hneq : ¬ st (name, fqdn) = some (vals ++ ["enabledService"]) := by
      rw [hst]
      simp
    refine ⟨st.set (name, fqdn) (vals ++ ["enabledService"]), ?_, ?_, ?_⟩
    · unfold ldap_enable
      rw [hst]
      simp [hany, hst]
    · refine ⟨vals ++ ["enabledService"], by simp [DirState.set], ?_⟩
      rw [List.filter_append, hfil]
      simp [htag]
    · have hget : (st.set (name, fqdn) (vals ++ ["enabledService"]))
          (name, fqdn) = some (vals ++ ["enabledService"]) := by
        simp [DirState.set]
      have hany2 : (vals ++ ["enabledService"]).any isEnabledTag = true := by
        simp [htag]
      unfold ldap_enable
      rw [hget]
      simp [hany2]
  | none =>
    have hso := serviceOrder_startOrder_not_tag name order horder
    have hcfil : config.filter isEnabledTag = [] :=
      filter_eq_nil_of_any_eq_false _ _ hconfig
    refine ⟨st.set (name, fqdn)
        ("enabledService" :: ("startOrder " ++ toString order) :: config),
      ?_, ?_, ?_⟩
    · unfold ldap_enable
      rw [hst, horder]
    · refine ⟨"enabledService" :: ("startOrder " ++ toString order) :: config,
        by simp [DirState.set], ?_⟩
      rw [List.filter_cons, List.filter_cons, hcfil]
      simp [htag, hso]
    · have hget : (st.set (name, fqdn)
          ("enabledService" :: ("startOrder " ++ toString order) :: config))
          (name, fqdn) =
            some ("enabledService" :: ("startOrder " ++ toString order) ::
              config) := by
        simp [DirState.set]
      have hany2 : ("enabledService" :: ("startOrder " ++ toString order) ::
          config).any isEnabledTag = true := by
        simp [htag]
      unfold ldap_enable
      rw [hget]
      simp [hany2]

/-- An empty directory. -/
def emptyDir : DirState := fun _ => none

/-- Witness for claim C7: enabling the CA service twice from an empty
directory. -/
theorem C7_witness :
    ∃ st1, (ldap_enable "CA" "master.ipa.test" [] emptyDir).2 =
        Except.ok st1 ∧
      (∃ vals1, st1 ("CA", "master.ipa.test") = some vals1 ∧
        (vals1.filter isEnabledTag).length = 1) ∧
      ldap_enable "CA" "master.ipa.test" [] st1 =
        ([LdapEff.osDisable], Except.ok st1) :=
  C7_ldap_enable_idempotent "CA" "master.ipa.test" [] [] emptyDir 50
    (by decide) rfl (fun vals h => Option.noConfusion h)

/-
backup_config from cainstance.py: refuse when the pki_tomcatd pki-tomcat
instance is running, otherwise copy CS.cfg to CS.cfg.ipabkp. The
CAInstance.backup_config method wraps it, turning any exception into a
logged warning. The filesystem is modelled as a map from path to content.
-/

/-- A filesystem: path to content, none when absent. -/
abbrev FS := String → Option String

/-- paths.CA_CS_CFG_PATH, the runtime config file of the CA subsystem. -/
def CA_CS_CFG_PATH : String := "/etc/pki/pki-tomcat/ca/CS.cfg"

/-- shutil.copy: read the source and write its content at the destination;
a missing source raises. -/
def shutil_copy (fs : FS) (src dst : String) : Except String FS :=
  match fs src with
  | none => Except.error ("IOError: " ++ src)
  | some content =>
    Except.ok (fun p => if p = dst then some content else fs p)

/-- Module-level backup_config: raise when the subsystem service is
running, otherwise copy CS.cfg to the sibling path with the .ipabkp
suffix. -/
def backup_config (running : Bool) (fs : FS) : Except String FS :=
  if running then
    Except.error ("Dogtag must be stopped when creating backup of " ++
      CA_CS_CFG_PATH)
  else
    shutil_copy fs CA_CS_CFG_PATH (CA_CS_CFG_PATH ++ ".ipabkp")

/-- CAInstance.backup_config: call backup_config, turning any exception
into a warning and leaving the filesystem untouched. -/
def CAInstance_backup_config (running : Bool) (fs : FS) : FS × Option String :=
  match backup_config running fs with
  | Except.ok fs2 => (fs2, none)
  | Except.error e => (fs, some ("Failed to backup CS.cfg: " ++ e))

/-- Claim C8: backup_config raises and writes no backup file when the
subsystem service is running (the wrapping method then leaves the
filesystem untouched and only warns), and otherwise copies the runtime
config file to the sibling path carrying the backup suffix, changing
nothing else. -/
theorem C8_backup_refused_when_running (fs : FS) (content : String)
    (hsrc : fs CA_CS_CFG_PATH = some content) :
    (∃ emsg, backup_config true fs = Except.error emsg) ∧
    (CAInstance_backup_config true fs).1 = fs ∧
    (∃ fs2, backup_config false fs = Except.ok fs2 ∧
      fs2 (CA_CS_CFG_PATH ++ ".ipabkp") = some content ∧
      ∀ p, p ≠ CA_CS_CFG_PATH ++ ".ipabkp" → fs2 p = fs p) := by
  refine ⟨⟨_, rfl⟩, rfl, ?_⟩
  refine ⟨fun p => if p = CA_CS_CFG_PATH ++ ".ipabkp" then some content
      else fs p, ?_, ?_, ?_⟩
  · unfold backup_config shutil_copy
    rw [hsrc]
    rfl
  · simp
  · intro p hp
    simp [hp]

/-- A filesystem holding only the CA runtime config file. -/
def c8FS : FS :=
  fun p => if p = CA_CS_CFG_PATH then some "ca.enableNonces=false" else none

/-- Witness for claim C8. -/
theorem C8_witness :
    (∃ emsg, backup_config true c8FS = Except.error emsg) ∧
    (CAInstance_backup_config true c8FS).1 = c8FS ∧
    (∃ fs2, backup_config false c8FS = Except.ok fs2 ∧
      fs2 (CA_CS_CFG_PATH ++ ".ipabkp") = some "ca.enableNonces=false" ∧
      ∀ p, p ≠ CA_CS_CFG_PATH ++ ".ipabkp" → fs2 p = c8FS p) :=
  C8_backup_refused_when_running c8FS "ca.enableNonces=false"
    (by simp [c8FS])
